import Mathlib

/-!
Verification development for the card-compare repository.

The definitions below are a shallow embedding of the repository's task
queue, queue worker, result dispatcher, submission handler, session
storage validation, auth-code handshake and unique-id generation.
Python functions become Lean functions; exceptions become `Except` /
`Option`; external effects (Telegram sends, the filesystem, the
database) are modelled as explicit parameters and effect lists.
-/

namespace CardCompare

/-- A Python exception class, as far as the modelled code distinguishes them. -/
inductive PyErr where
  | typeError
  | attributeError
  | fileNotFound (msg : String)
  | valueError (msg : String)
  | keyError
  deriving DecidableEq, Repr

/-! ## Python string operations

Models of the `str` methods the embedded code uses, written over
character lists so that they evaluate inside the kernel. -/

/-- Drop leading whitespace. -/
def dropWsHead : List Char → List Char
  | c :: rest => if c.isWhitespace then dropWsHead rest else c :: rest
  | [] => []

/-- Python `str.strip()`: whitespace removed at both ends. -/
def pyStrip (s : String) : String :=
  String.mk (dropWsHead (dropWsHead s.data.reverse).reverse)

/-- Python `str.split(sep)` for a one-character separator. -/
def splitChar (sep : Char) : List Char → List (List Char)
  | [] => [[]]
  | c :: rest =>
      let r := splitChar sep rest
      if c = sep then [] :: r
      else
        match r with
        | h :: t => (c :: h) :: t
        | [] => [[c]]

/-- Numeric value of a decimal digit run. -/
def digitsVal (ds : List Char) : Nat :=
  ds.foldl (fun acc c => acc * 10 + (c.toNat - 48)) 0

/-- Whether `pat` occurs in `cs` as a contiguous run (Python `sub in str`). -/
def hasRun (pat : List Char) : List Char → Bool
  | [] => pat.isEmpty
  | c :: rest => pat.isPrefixOf (c :: rest) || hasRun pat rest

/-! ## bot/queue.py — ReportTask, ReportResult -/

/-- `ReportTask` dataclass of `src/bot/queue.py`: fields `task_id`,
`user_id`, `chat_id`, `articles`, `loading_message_id` (default `None`).
There is no `report_id` field. -/
structure ReportTask where
  task_id : String
  user_id : Int
  chat_id : Int
  articles : List Int
  loading_message_id : Option Int := none
  deriving DecidableEq, Repr

/-- `ReportResult` dataclass of `src/bot/queue.py`. -/
structure ReportResult where
  task_id : String
  user_id : Int
  chat_id : Int
  success : Bool
  file_path : Option String := none
  error : Option String := none
  loading_message_id : Option Int := none
  deriving DecidableEq, Repr

/-- The keyword parameters accepted by `ReportTask.create` in
`src/bot/queue.py` (besides `cls`): `user_id`, `chat_id`, `articles`,
`loading_message_id`. -/
def reportTaskCreateParams : List String :=
  ["user_id", "chat_id", "articles", "loading_message_id"]

/-- The keywords the call site in `process_articles`
(`src/bot/handlers/reports.py`) passes to `ReportTask.create`.
Note `report_id`, which `create` does not accept. -/
def processArticlesCallKeywords : List String :=
  ["user_id", "chat_id", "articles", "report_id", "loading_message_id"]

/-- Python keyword-call semantics: a call whose keyword set is not a
subset of the callee's parameters raises `TypeError` before the body
runs; otherwise the body builds the value. -/
def pyKeywordCall (params passed : List String) (body : Unit → ReportTask) :
    Except PyErr ReportTask :=
  if passed.all (fun k => params.contains k) then .ok (body ()) else .error .typeError

/-! ## main.py — pipeline, queue worker (C1, C4) -/

/-- One run of the three-stage real pipeline
(`Application.process_report_real` in `src/main.py`): `compare_cards`,
then `process_filters`, then `download_documents`; an exception at any
stage propagates (is modelled as `Except.error` with the exception's
string). On success it returns the artifact path from the download
stage. -/
def processReportReal (compare : List Int → Except String Unit)
    (filters : Except String (Nat × Nat))
    (download : Nat → Nat → Except String String)
    (articles : List Int) : Except String String := do
  compare articles
  let (uniqueId, count) ← filters
  download uniqueId count

/-- The static path returned by `Application.process_report_mock`
(`Path(__file__).parent / "storage" / "test_report.txt"`); the absolute
prefix is irrelevant to every claim, so the model fixes the relative
form. -/
def mockReportPath : String := "storage/test_report.txt"

/-- `Application.process_report_mock`: logs, sleeps, and returns the
static path; it never raises. -/
def processReportMock (_articles : List Int) : Except String String :=
  .ok mockReportPath

/-- The per-job external environment the worker consults: the
`IS_WB_USE_MOCK` feature flag (re-read from the database for every job,
`get_wb_use_mock`) and the behaviour of the three real pipeline stages
during that job. -/
structure WorkerEnv where
  useMock : Bool
  compare : List Int → Except String Unit
  filters : Except String (Nat × Nat)
  download : Nat → Nat → Except String String

/-- The body of one iteration of `Application.queue_worker`
(`src/main.py`) after a task is dequeued: choose mock or real pipeline
by the flag, and build exactly one `ReportResult` — success with the
artifact path when the pipeline returns, failure with the stringified
exception when any stage raises. -/
def queueWorkerStep (env : WorkerEnv) (task : ReportTask) : ReportResult :=
  let outcome :=
    if env.useMock then processReportMock task.articles
    else processReportReal env.compare env.filters env.download task.articles
  match outcome with
  | .ok filePath =>
      { task_id := task.task_id, user_id := task.user_id, chat_id := task.chat_id,
        success := true, file_path := some filePath, error := none,
        loading_message_id := task.loading_message_id }
  | .error e =>
      { task_id := task.task_id, user_id := task.user_id, chat_id := task.chat_id,
        success := false, file_path := none, error := some e,
        loading_message_id := task.loading_message_id }

/-- The single-consumer worker loop of `Application.queue_worker` run
over the FIFO contents of the task channel, with `env i` the external
environment observed while the `i`-th dequeued job runs: each dequeued
task yields its result (enqueued on the result channel) before the next
task is dequeued, and a pipeline failure does not stop the loop. -/
def queueWorkerRun (env : Nat → WorkerEnv) : List ReportTask → Nat → List ReportResult
  | [], _ => []
  | task :: rest, i => queueWorkerStep (env i) task :: queueWorkerRun env rest (i + 1)

/-! ## database/queries.py — balance operations -/

/-- The users table, as the balance queries see it: a map from Telegram
id to `reports_balance` for existing users. -/
def BalanceDb := Int → Option Int

/-- `update_balance` in `src/database/queries.py`: looks the user up;
a missing user changes nothing and returns `none`; otherwise the new
balance is `reports_balance + amount`, clamped to `0` when that would
be negative, written back, and returned. -/
def update_balance (db : BalanceDb) (userId amount : Int) : BalanceDb × Option Int :=
  match db userId with
  | none => (db, none)
  | some balance =>
      let newBalance := if balance + amount < 0 then 0 else balance + amount
      (fun u => if u = userId then some newBalance else db u, some newBalance)

/-- `check_balance` in `src/database/queries.py`: the user's
`reports_balance`, or `0` when the user does not exist. -/
def check_balance (db : BalanceDb) (userId : Int) : Int :=
  (db userId).getD 0

/-! ## main.py — result dispatcher (C3) -/

/-- A user-visible side effect performed by `Application.result_processor`. -/
inductive Effect where
  | deletedLoadingMessage (chatId msgId : Int)
  | sentDocument (chatId : Int) (path : String) (caption : String)
  | deletedFile (path : String)
  | sentMessage (chatId : Int) (text : String)
  deriving DecidableEq, Repr

/-- The caption `result_processor` attaches to a delivered report file. -/
def reportReadyCaption : String := "✅ <b>Отчет готов!</b>"

/-- The balance message `result_processor` sends after deducting
(`f"💰 Осталось отчетов: <b>{balance}</b>"`). -/
def balanceMessage (balance : Int) : String :=
  "💰 Осталось отчетов: <b>" ++ toString balance ++ "</b>"

/-- The failure message `result_processor` sends; `{result.error}`
interpolates Python-style (`None` prints as `"None"`). -/
def errorMessage (error : Option String) : String :=
  "❌ <b>Ошибка при генерации отчета</b>\n\n<code>" ++ error.getD "None"
    ++ "</code>\n\nБаланс не был списан. Попробуйте позже."

/-- External conditions during one `result_processor` iteration:
whether `bot.delete_message` on the loading sticker succeeds (its
failure is swallowed), which paths `os.path.exists` reports, whether
`bot.send_document` succeeds, and whether `os.unlink` succeeds (its
failure is swallowed). -/
structure DispatchEnv where
  deleteMessageOk : Bool
  fsExists : String → Bool
  sendDocumentOk : Bool
  unlinkOk : Bool

/-- The body of one iteration of `Application.result_processor`
(`src/main.py`) for a dequeued result: best-effort delete of the
loading sticker; on success verify the artifact exists (a missing file
raises `FileNotFoundError`), send it, best-effort delete it, deduct one
unit via `update_balance(user_id, -1)` and report `check_balance`; on
failure send the error text. Any exception inside is caught and logged,
leaving the effects performed so far and the database untouched beyond
them. Returns the effects in order and the database afterwards. -/
def resultProcessorStep (env : DispatchEnv) (db : BalanceDb) (result : ReportResult) :
    List Effect × BalanceDb :=
  let stickerEffects :=
    match result.loading_message_id with
    | some msgId =>
        if env.deleteMessageOk then [Effect.deletedLoadingMessage result.chat_id msgId]
        else []
    | none => []
  if result.success then
    match result.file_path with
    | none =>
        -- `os.path.exists(None)` raises TypeError, caught by the inner handler
        (stickerEffects, db)
    | some path =>
        if ¬ env.fsExists path then
          -- FileNotFoundError raised and caught: no delivery, no deduction
          (stickerEffects, db)
        else if ¬ env.sendDocumentOk then
          -- send_document raised and caught: no deletion, no deduction
          (stickerEffects, db)
        else
          let sendEffects := [Effect.sentDocument result.chat_id path reportReadyCaption]
          let unlinkEffects := if env.unlinkOk then [Effect.deletedFile path] else []
          let (db', _) := update_balance db result.user_id (-1)
          let balance := check_balance db' result.user_id
          (stickerEffects ++ sendEffects ++ unlinkEffects
            ++ [Effect.sentMessage result.chat_id (balanceMessage balance)], db')
  else
    (stickerEffects ++ [Effect.sentMessage result.chat_id (errorMessage result.error)], db)

/-! ## bot/handlers/reports.py — process_articles (C2) -/

/-- Model of Python `int(s)` on an already-stripped token: an optional
sign followed by one or more ASCII digits; anything else raises
`ValueError` (`none` here). -/
def pyInt (s : String) : Option Int :=
  let (neg, core) :=
    match s.data with
    | '-' :: rest => (true, rest)
    | '+' :: rest => (false, rest)
    | cs => (false, cs)
  if core.isEmpty ∨ ¬ core.all Char.isDigit then none
  else some (if neg then -(digitsVal core : Int) else (digitsVal core : Int))

/-- `[int(a) for a in articles_str if a]`: skip empty tokens, convert
the rest; the first failing conversion raises `ValueError`. -/
def parseArticles (tokens : List String) : Except PyErr (List Int) :=
  match tokens with
  | [] => .ok []
  | t :: rest =>
      if t = "" then parseArticles rest
      else
        match pyInt t with
        | none => .error (.valueError t)
        | some n => do
            let others ← parseArticles rest
            .ok (n :: others)

/-- The acknowledgment `process_articles` sends once validation passes,
with the article list and the queue position interpolated. -/
def queuedAckMessage (articlesText : String) (queueSize : Nat) : String :=
  "✅ <b>Задача добавлена в очередь</b>\n\n📦 Артикулы: <code>" ++ articlesText
    ++ "</code>\n📊 Позиция в очереди: " ++ toString queueSize
    ++ "\n\n⏳ Ожидайте, отчет будет готов через несколько минут...\n"
    ++ "💰 После генерации будет списано: 1 отчет"

/-- What one invocation of `process_articles` did: the replies sent, the
tasks enqueued on the report queue, whether the FSM state was cleared,
and the exception that escaped the handler, if any. -/
structure HandlerOutcome where
  replies : List String
  enqueued : List ReportTask
  stateCleared : Bool
  raised : Option PyErr
  deriving DecidableEq, Repr

/-- The handler `process_articles` of `src/bot/handlers/reports.py`,
over: the requester's `reports_balance`, the message text, the current
`report_queue.qsize()`, the id `create_report` returned (`none` when the
insert failed), the loading-sticker message id, and the fresh uuid for
`ReportTask.create`. Validation failures reply and return; a valid
submission is acknowledged with the queue position `qsize + 1`, then the
handler calls `ReportTask.create` with a `report_id` keyword — which
`create` does not accept — so the call's outcome decides whether a task
is enqueued and the state cleared, or a `TypeError` escapes. -/
def process_articles (balance : Int) (text : String) (qsize : Nat)
    (reportId : Option Int) (stickerMsgId : Option Int)
    (userId chatId : Int) (uuid : String) : HandlerOutcome :=
  if balance ≤ 0 then
    { replies := ["insufficient balance"], enqueued := [], stateCleared := true,
      raised := none }
  else
    let argsText := pyStrip text
    if argsText = "" then
      { replies := ["no articles"], enqueued := [], stateCleared := false, raised := none }
    else
      let tokens := (splitChar ',' argsText.data).map (fun cs => pyStrip (String.mk cs))
      match parseArticles tokens with
      | .error _ =>
          { replies := ["bad format"], enqueued := [], stateCleared := false,
            raised := none }
      | .ok articles =>
          if articles.length < 2 then
            { replies := ["too few"], enqueued := [], stateCleared := false,
              raised := none }
          else if articles.length > 5 then
            { replies := ["too many"], enqueued := [], stateCleared := false,
              raised := none }
          else
            let articlesText := String.intercalate ", " (articles.map toString)
            let queueSize := qsize + 1
            let ack := queuedAckMessage articlesText queueSize
            -- create_report, send_loading_sticker, then ReportTask.create with
            -- keywords user_id, chat_id, articles, report_id, loading_message_id
            let _ := reportId
            let call := pyKeywordCall reportTaskCreateParams processArticlesCallKeywords
              (fun _ =>
                { task_id := uuid, user_id := userId, chat_id := chatId,
                  articles := articles, loading_message_id := stickerMsgId })
            match call with
            | .ok task =>
                { replies := [ack], enqueued := [task], stateCleared := true,
                  raised := none }
            | .error e =>
                { replies := [ack], enqueued := [], stateCleared := false,
                  raised := some e }

/-! ## A model of Python values for the session file (scraper/state_storage.py)

The state file is read with `json.load` and walked with `.get`, `in`,
truthiness and iteration, so the model carries a JSON value type and the
Python semantics of those operations.  JSON numbers are modelled as
integers (the session files at stake hold epoch seconds and token
strings; fractional numbers are outside the model). -/

inductive Json where
  | null
  | bool (b : Bool)
  | int (n : Int)
  | str (s : String)
  | arr (elems : List Json)
  | obj (fields : List (String × Json))

/-- Python truthiness (`if not state`, `if not cookies`, ...). -/
def Json.truthy : Json → Bool
  | .null => false
  | .bool b => b
  | .int n => n != 0
  | .str s => s ≠ ""
  | .arr xs => !xs.isEmpty
  | .obj fs => !fs.isEmpty

/-- Python `key in x` for a string key: dict key membership, list element
membership, substring test on strings; `TypeError` on numbers and `None`. -/
def jsonContainsStr (x : Json) (key : String) : Except PyErr Bool :=
  match x with
  | .obj fs => .ok (fs.any (fun p => p.1 = key))
  | .arr xs => .ok (xs.any (fun v => match v with | .str s => s = key | _ => false))
  | .str s => .ok (hasRun key.data s.data)
  | _ => .error .typeError

/-- Python `x.get(key, default)`: only dicts have `.get`
(`AttributeError` otherwise); for repeated keys `json.load` keeps the
last value, which the lookup reflects. -/
def Json.pyGetD (x : Json) (key : String) (default : Json) : Except PyErr Json :=
  match x with
  | .obj fs =>
      .ok ((((fs.filter (fun p => p.1 = key)).getLast?).map Prod.snd).getD default)
  | _ => .error .attributeError

/-- Python `for v in x`: list elements, dict keys, characters of a
string; `TypeError` on numbers and `None`. -/
def Json.pyIter : Json → Except PyErr (List Json)
  | .arr xs => .ok xs
  | .obj fs => .ok (fs.map (fun p => .str p.1))
  | .str s => .ok (s.data.map (fun c => .str (String.mk [c])))
  | _ => .error .typeError

/-- A value compared against an `int` (`expires > 0`): numbers and bools
compare, everything else raises `TypeError` in Python 3. -/
def jsonAsNum : Json → Option Int
  | .int n => some n
  | .bool b => some (if b then 1 else 0)
  | _ => none

/-! ### json.loads — a parser for the modelled JSON fragment

Models `json.load` / `json.loads` on objects, arrays, strings (with the
standard escapes), integer numerals, `true`, `false` and `null`;
fractional and exponent numerals are outside the model. `none` is a
`JSONDecodeError`. -/

/-- Skip JSON whitespace. -/
def skipWs : List Char → List Char
  | c :: rest =>
      if c = ' ' ∨ c = '\t' ∨ c = '\n' ∨ c = '\r' then skipWs rest else c :: rest
  | [] => []

/-- Hex digit value. -/
def hexVal (c : Char) : Option Nat :=
  if '0' ≤ c ∧ c ≤ '9' then some (c.toNat - 48)
  else if 'a' ≤ c ∧ c ≤ 'f' then some (c.toNat - 87)
  else if 'A' ≤ c ∧ c ≤ 'F' then some (c.toNat - 55)
  else none

/-- The character a JSON single-character escape denotes. -/
def escChar (c : Char) : Option Char :=
  if c = '"' then some '"'
  else if c = '\\' then some '\\'
  else if c = '/' then some '/'
  else if c = 'b' then some (Char.ofNat 8)
  else if c = 'f' then some (Char.ofNat 12)
  else if c = 'n' then some '\n'
  else if c = 'r' then some '\r'
  else if c = 't' then some '\t'
  else none

/-- Parse the body of a JSON string after its opening quote, returning
the characters and the rest of the input. -/
def parseStrBody : List Char → Option (List Char × List Char)
  | [] => none
  | '"' :: rest => some ([], rest)
  | '\\' :: 'u' :: a :: b :: c :: d :: rest => do
      let n := (← hexVal a) * 4096 + (← hexVal b) * 256 + (← hexVal c) * 16 + (← hexVal d)
      let (tail, rem) ← parseStrBody rest
      some (Char.ofNat n :: tail, rem)
  | '\\' :: e :: rest => do
      let ch ← escChar e
      let (tail, rem) ← parseStrBody rest
      some (ch :: tail, rem)
  | c :: rest =>
      if c.toNat < 32 then none
      else do
        let (tail, rem) ← parseStrBody rest
        some (c :: tail, rem)

/-- Take a maximal run of decimal digits. -/
def takeDigits : List Char → List Char × List Char
  | c :: rest =>
      if c.isDigit then
        let (ds, rem) := takeDigits rest
        (c :: ds, rem)
      else ([], c :: rest)
  | [] => ([], [])

/-- Parse a JSON integer numeral (no leading zeros; a following `.`,
`e` or `E` would make it a float, which is outside the model). -/
def parseIntNum (cs : List Char) : Option (Json × List Char) :=
  let (neg, cs') := match cs with
    | '-' :: rest => (true, rest)
    | _ => (false, cs)
  let (ds, rem) := takeDigits cs'
  if ds.isEmpty then none
  else if ds.length > 1 ∧ ds.headD '0' = '0' then none
  else
    match rem with
    | '.' :: _ => none
    | 'e' :: _ => none
    | 'E' :: _ => none
    | _ =>
        let v : Int := digitsVal ds
        some (.int (if neg then -v else v), rem)

mutual

/-- Parse one JSON value; `fuel` bounds the recursion and is at least
the input length at the top-level call, which suffices since every
nesting level consumes input. -/
def parseVal : Nat → List Char → Option (Json × List Char)
  | 0, _ => none
  | fuel + 1, cs0 =>
    match skipWs cs0 with
    | [] => none
    | 't' :: 'r' :: 'u' :: 'e' :: rem => some (.bool true, rem)
    | 'f' :: 'a' :: 'l' :: 's' :: 'e' :: rem => some (.bool false, rem)
    | 'n' :: 'u' :: 'l' :: 'l' :: rem => some (.null, rem)
    | '"' :: rest =>
        (parseStrBody rest).map (fun p => (.str (String.mk p.1), p.2))
    | '{' :: rest =>
        (match skipWs rest with
         | '}' :: rem => some (.obj [], rem)
         | cs => (parseFields fuel cs).map (fun p => (.obj p.1, p.2)))
    | '[' :: rest =>
        (match skipWs rest with
         | ']' :: rem => some (.arr [], rem)
         | cs => (parseElems fuel cs).map (fun p => (.arr p.1, p.2)))
    | cs => parseIntNum cs

/-- Parse `"key": value` pairs up to the closing brace. -/
def parseFields : Nat → List Char → Option (List (String × Json) × List Char)
  | 0, _ => none
  | fuel + 1, cs =>
    match skipWs cs with
    | '"' :: rest =>
        (match parseStrBody rest with
         | none => none
         | some (keyChars, rem) =>
           match skipWs rem with
           | ':' :: rem2 =>
               (match parseVal fuel rem2 with
                | none => none
                | some (v, rem3) =>
                  match skipWs rem3 with
                  | ',' :: rem4 =>
                      (parseFields fuel rem4).map
                        (fun p => ((String.mk keyChars, v) :: p.1, p.2))
                  | '}' :: rem4 => some ([(String.mk keyChars, v)], rem4)
                  | _ => none)
           | _ => none)
    | _ => none

/-- Parse array elements up to the closing bracket. -/
def parseElems : Nat → List Char → Option (List Json × List Char)
  | 0, _ => none
  | fuel + 1, cs =>
    match parseVal fuel cs with
    | none => none
    | some (v, rem) =>
      match skipWs rem with
      | ',' :: rem2 => (parseElems fuel rem2).map (fun p => (v :: p.1, p.2))
      | ']' :: rem2 => some ([v], rem2)
      | _ => none

end

/-- `json.loads` on a whole document: one value, then only whitespace. -/
def jsonParse (s : String) : Option Json :=
  match parseVal (s.length + 1) s.data with
  | some (v, rem) => if skipWs rem = [] then some v else none
  | none => none

/-! ## scraper/state_storage.py — base64, JWT and state validation -/

/-- Value of a base64-alphabet character. -/
def b64CharVal (c : Char) : Option Nat :=
  if 'A' ≤ c ∧ c ≤ 'Z' then some (c.toNat - 65)
  else if 'a' ≤ c ∧ c ≤ 'z' then some (c.toNat - 97 + 26)
  else if '0' ≤ c ∧ c ≤ '9' then some (c.toNat - 48 + 52)
  else if c = '+' then some 62
  else if c = '/' then some 63
  else none

/-- Decode base64 four characters at a time; `=` padding is only legal
at the very end. `none` is a `binascii.Error`. -/
def b64Groups : List Char → Option (List Nat)
  | [] => some []
  | a :: b :: c :: d :: rest => do
      let va ← b64CharVal a
      let vb ← b64CharVal b
      if c = '=' then
        if d = '=' ∧ rest = [] then some [va * 4 + vb / 16] else none
      else
        let vc ← b64CharVal c
        if d = '=' then
          if rest = [] then some [va * 4 + vb / 16, (vb % 16) * 16 + vc / 4] else none
        else do
          let vd ← b64CharVal d
          let tail ← b64Groups rest
          some ((va * 4 + vb / 16) :: ((vb % 16) * 16 + vc / 4) :: ((vc % 4) * 64 + vd) :: tail)
  | _ => none

/-- `base64.b64decode` with `validate=False`: characters outside the
alphabet are discarded before decoding. -/
def b64decode (cs : List Char) : Option (List Nat) :=
  b64Groups (cs.filter (fun c => (b64CharVal c).isSome ∨ c = '='))

/-- Decoded bytes handed to `json.loads` (the payloads at stake are
ASCII). -/
def bytesToString (bytes : List Nat) : String :=
  String.mk (bytes.map Char.ofNat)

/-- `StateStorage._validate_jwt` of `src/scraper/state_storage.py` at
current time `t`: falsy tokens fail; then, with every exception caught
inside (yielding `False`): split on `.` into exactly 3 parts, pad and
base64-decode the payload, parse it as JSON, and reject an `iat` more
than 90 days old; everything else passes. -/
def validate_jwt (t : Int) (token : Json) : Bool :=
  if ¬ token.truthy then false
  else
    match token with
    | .str s =>
        let parts := splitChar '.' s.data
        if parts.length ≠ 3 then false
        else
          let payloadB64 := parts.getD 1 []
          let padding := 4 - payloadB64.length % 4
          let padded :=
            if padding ≠ 4 then payloadB64 ++ List.replicate padding '='
            else payloadB64
          match b64decode padded with
          | none => false
          | some bytes =>
            match jsonParse (bytesToString bytes) with
            | none => false
            | some payload =>
              match payload.pyGetD "iat" (.int 0) with
              | .error _ => false
              | .ok iatVal =>
                match jsonAsNum iatVal with
                | none => false  -- `iat > 0` on a non-number raises, caught
                | some iat =>
                    if iat > 0 ∧ t - iat > 90 * 24 * 3600 then false else true
    | _ => false  -- `.split` on a non-string raises AttributeError, caught

/-- The `found_cookies` scan of `_is_state_valid`: walk the cookie list
reading each element's `name` (raising on elements without `.get`),
keeping the last cookie named `wbx-refresh` and the last named
`wbx-validation-key`. -/
def collectCriticals :
    List Json → Option Json × Option Json → Except PyErr (Option Json × Option Json)
  | [], acc => .ok acc
  | cookie :: rest, (r, v) => do
      let name ← cookie.pyGetD "name" .null
      let acc :=
        match name with
        | .str s =>
            if s = "wbx-refresh" then (some cookie, v)
            else if s = "wbx-validation-key" then (r, some cookie)
            else (r, v)
        | _ => (r, v)
      collectCriticals rest acc

/-- The expiry check of `_is_state_valid` on one critical cookie at
current time `t`: `expires = cookie.get('expires', 0)`; the cookie is
rejected iff `expires > 0 and t > expires - 3600` (one-hour safety
margin); a non-numeric `expires` raises `TypeError`. Returns `true`
when the cookie survives. -/
def cookieExpiryOk (t : Int) (cookie : Json) : Except PyErr Bool := do
  let expires ← cookie.pyGetD "expires" (.int 0)
  match jsonAsNum expires with
  | some e => .ok (¬ (e > 0 ∧ t > e - 3600) : Bool)
  | none => .error .typeError

/-- The body of `_is_state_valid`'s `for critical_name in
critical_cookies` loop plus the JWT check, over the scanned
`found_cookies` pair (refresh, validation-key), in the source's order:
missing `wbx-refresh` rejects, then its expiry check, then the same for
`wbx-validation-key`, then the refresh cookie's `value` must pass the
JWT check (the cookie, a nonempty dict, is always truthy, matching
`if refresh_cookie:`). -/
def criticalCookiesCheck (t : Int) (rv : Option Json × Option Json) :
    Except PyErr Bool := do
  match rv.1 with
  | none => return false
  | some rc =>
    let ok1 ← cookieExpiryOk t rc
    if ¬ ok1 then return false
    match rv.2 with
    | none => return false
    | some vc =>
      let ok2 ← cookieExpiryOk t vc
      if ¬ ok2 then return false
      if rc.truthy then
        let value ← rc.pyGetD "value" (.str "")
        if ¬ validate_jwt t value then return false
      return true

/-- `StateStorage._is_state_valid` of `src/scraper/state_storage.py` at
current time `t`: reject falsy states and states without a `cookies`
entry; reject an empty cookie collection; scan for the two critical
cookies (`collectCriticals`); then run the critical-cookie loop and the
JWT check (`criticalCookiesCheck`). Exceptions escape to the caller
(`load_state` catches them). -/
def is_state_valid (t : Int) (state : Json) : Except PyErr Bool := do
  if ¬ state.truthy then return false
  let mem ← jsonContainsStr state "cookies"
  if ¬ mem then return false
  let cookies ← state.pyGetD "cookies" (.arr [])
  if ¬ cookies.truthy then return false
  let items ← cookies.pyIter
  let rv ← collectCriticals items (none, none)
  criticalCookiesCheck t rv

/-- `StateStorage.load_state` of `src/scraper/state_storage.py` at
current time `t`, over the state file's content (`none` when the file
does not exist): a missing file returns `None`; a `json.load` failure,
an exception inside validation, or a failed validation returns `None`
(all caught); only an existing, parsing, valid state is returned. -/
def load_state (t : Int) (file : Option String) : Option Json :=
  match file with
  | none => none
  | some content =>
    match jsonParse content with
    | none => none
    | some state =>
      match is_state_valid t state with
      | .ok true => some state
      | _ => none

/-! ## Structured session states

Well-formed session states — a cookie collection serialized the way the
browser writes the file — expressed as the `Json` values the validator
actually receives, so claims about "a session state containing a
cookie ..." quantify over these. -/

/-- One serialized cookie record: `name`, `value`, and an `expires`
epoch that may be absent from the record (`none`). -/
structure CookieRec where
  name : String
  value : String
  expires : Option Int
  deriving DecidableEq, Repr

/-- The JSON object a cookie record serializes to. -/
def cookieJson (c : CookieRec) : Json :=
  .obj ([("name", Json.str c.name), ("value", Json.str c.value)] ++
    (match c.expires with
     | some e => [("expires", Json.int e)]
     | none => []))

/-- The JSON object a session state with the given cookie list
serializes to. -/
def stateJson (cookies : List CookieRec) : Json :=
  .obj [("cookies", Json.arr (cookies.map cookieJson))]

/-- The last cookie in the list bearing the given name — the one the
validator's `found_cookies` dict ends up holding. -/
def lastNamed : List CookieRec → String → Option CookieRec
  | [], _ => none
  | c :: rest, n =>
      match lastNamed rest n with
      | some d => some d
      | none => if c.name = n then some c else none

/-! ## scraper/auth_service.py and bot/handlers/auth_code.py (C7, C8) -/

/-- An `asyncio.Future` as the code uses it: pending, resolved with a
code, or cancelled (what `asyncio.wait_for` does to it on timeout). -/
inductive PyFuture where
  | pending
  | resolved (code : String)
  | cancelled
  deriving DecidableEq, Repr

/-- `Future.done()`: everything but pending. -/
def PyFuture.done : PyFuture → Bool
  | .pending => false
  | _ => true

/-- `Future.set_result(v)`: resolves a pending future; on a done future
it raises `InvalidStateError` (modelled as a `valueError`). -/
def PyFuture.set_result (fut : PyFuture) (v : String) : Except PyErr PyFuture :=
  match fut with
  | .pending => .ok (.resolved v)
  | _ => .error (.valueError "invalid state")

/-- The mutable state of `WBAuthService` the handshake touches:
`_pending_code_future`. -/
structure AuthServiceState where
  pendingCodeFuture : Option PyFuture
  deriving DecidableEq, Repr

/-- `WBClient` as the auth-code handler sees it: its `_auth_service`
attribute, possibly absent. -/
structure WBClientState where
  authService : Option AuthServiceState
  deriving DecidableEq, Repr

/-- `Application` as the auth-code handler sees it: its `wb_client`
attribute, possibly absent. -/
structure AppState where
  wbClient : Option WBClientState
  deriving DecidableEq, Repr

/-- Whether `bot.send_message` to the admin succeeded. -/
inductive SendOutcome where
  | ok
  | failed (msg : String)
  deriving DecidableEq, Repr

/-- How the 300-second wait on the pending future ended: a code arrived
in time, or `asyncio.wait_for` raised `TimeoutError`. -/
inductive WaitOutcome where
  | code (c : String)
  | timeout
  deriving DecidableEq, Repr

/-- The exceptions `_request_code_via_telegram` raises: failure to
notify the admin, and the distinct timeout condition
(`Exception('Auth code timeout - no response from admin')`). -/
inductive AuthErr where
  | cannotSend (msg : String)
  | codeTimeout
  deriving DecidableEq, Repr

/-- `WBAuthService._request_code_via_telegram` of
`src/scraper/auth_service.py`: create a fresh pending future, send the
notification (on failure clear the slot and raise `cannotSend`), then
wait on the future for 300 seconds; a code resolves the call, a timeout
raises the distinct `codeTimeout`; the `finally` block clears
`_pending_code_future` on every exit. Returns the service state after
the call and the call's outcome. -/
def request_code_via_telegram (send : SendOutcome) (wait : WaitOutcome)
    (_s : AuthServiceState) : AuthServiceState × Except AuthErr String :=
  match send with
  | .failed m => ({ pendingCodeFuture := none }, .error (.cannotSend m))
  | .ok =>
      match wait with
      | .code c => ({ pendingCodeFuture := none }, .ok c)
      | .timeout => ({ pendingCodeFuture := none }, .error .codeTimeout)

/-- The router filter of `handle_auth_code`: `^\d{4,6}$`. -/
def matchesAuthCode (text : String) : Bool :=
  4 ≤ text.length ∧ text.length ≤ 6 ∧ text.data.all Char.isDigit

/-- What one invocation of `handle_auth_code` did. The handler wraps
`set_result` in `try/except`, so no exception escapes it: `raised` is
how an escaping exception would be reported. -/
structure AuthHandlerOutcome where
  app : AppState
  replies : List String
  raised : Option PyErr
  deriving DecidableEq, Repr

/-- The reply when no pending request exists or it is already done. -/
def noActiveRequestReply : String :=
  "❌ <b>Нет активного запроса на код</b>\n\nВозможно, запрос уже обработан или истёк."

/-- `handle_auth_code` of `src/bot/handlers/auth_code.py` (body; the
router has already matched `^\d{4,6}$`): ignore non-admin senders;
report a missing `wb_client` or `_auth_service`; if
`_pending_code_future` is absent or already done, reply that no request
is active and leave everything untouched; otherwise strip the text and
`set_result` it into the future, catching any error from `set_result`. -/
def handle_auth_code (adminId fromUserId : Int) (text : String) (app : AppState) :
    AuthHandlerOutcome :=
  if fromUserId ≠ adminId then { app := app, replies := [], raised := none }
  else
    match app.wbClient with
    | none => { app := app, replies := ["❌ Ошибка: WBClient не найден"], raised := none }
    | some wb =>
      match wb.authService with
      | none =>
          { app := app, replies := ["❌ Ошибка: AuthService не найден"], raised := none }
      | some auth =>
        match auth.pendingCodeFuture with
        | none =>
            { app := app, replies := [noActiveRequestReply], raised := none }
        | some fut =>
          if fut.done then
            { app := app, replies := [noActiveRequestReply], raised := none }
          else
            let code := pyStrip text
            match fut.set_result code with
            | .ok fut' =>
                let auth' : AuthServiceState := { pendingCodeFuture := some fut' }
                let wb' : WBClientState := { authService := some auth' }
                { app := { wbClient := some wb' },
                  replies := ["✅ <b>Код принят!</b>\n\nВыполняется авторизация..."],
                  raised := none }
            | .error _ =>
                { app := app, replies := ["❌ Ошибка"], raised := none }

/-- The pending-code slot reachable through `app.wb_client._auth_service`,
when the whole chain exists. -/
def pendingSlotOf (app : AppState) : Option PyFuture :=
  (app.wbClient.bind (·.authService)).bind (·.pendingCodeFuture)

/-! ## scraper/scraper_service.py — generate_unique_id (C9) -/

/-- `generate_unique_id` of `src/scraper/scraper_service.py`,
parameterized by `h`, the process's builtin string `hash` (Python seeds
it per process, and the function is pure within a process): an empty
argument list yields `0`; otherwise hash the concatenated numbers
salted with their sum, and clamp with `abs(...) % 10**9`. -/
def generate_unique_id (h : String → Int) (numbers : List Int) : Nat :=
  if numbers.isEmpty then 0
  else
    let combined := String.join (numbers.map toString)
    let hashValue := h (combined ++ "_salt_" ++ toString numbers.sum)
    hashValue.natAbs % 10 ^ 9

/-- The identifier `WBScraperService.process_filters` computes before
iterating the filters: `generate_unique_id(1, 2, 3, 4, 5)` — a fixed
seed set, never the job's articles. -/
def processFiltersUniqueId (h : String → Int) : Nat :=
  generate_unique_id h [1, 2, 3, 4, 5]

/-- The identifier the real pipeline uses for a job: `process_filters()`
takes no job data, so the job's articles cannot influence it. -/
def realPipelineUniqueId (h : String → Int) (_articles : List Int) : Nat :=
  processFiltersUniqueId h

/-! # Theorems -/

/-! ## Worker lemmas shared by the queue claims -/

lemma hasRun_append_of_right (pat tail : List Char) (h : hasRun pat tail = true)
    (pre : List Char) : hasRun pat (pre ++ tail) = true := by
  induction pre with
  | nil => simpa using h
  | cons c rest ih => simp [hasRun, ih]

lemma queueWorkerRun_length (env : Nat → WorkerEnv) (tasks : List ReportTask) (start : Nat) :
    (queueWorkerRun env tasks start).length = tasks.length := by
  induction tasks generalizing start with
  | nil => rfl
  | cons t rest ih => simp [queueWorkerRun, ih]

lemma queueWorkerRun_get? (env : Nat → WorkerEnv) (tasks : List ReportTask)
    (start i : Nat) (task : ReportTask) (h : tasks.get? i = some task) :
    (queueWorkerRun env tasks start).get? i =
      some (queueWorkerStep (env (start + i)) task) := by
  induction tasks generalizing start i with
  | nil => simp at h
  | cons t rest ih =>
      cases i with
      | zero =>
          simp only [List.get?] at h
          cases h
          rfl
      | succ n =>
          simp only [List.get?] at h
          have := ih (start + 1) n h
          simpa [queueWorkerRun, Nat.add_assoc, Nat.add_comm 1 n] using this

lemma queueWorkerStep_task_id (e : WorkerEnv) (task : ReportTask) :
    (queueWorkerStep e task).task_id = task.task_id := by
  cases h : (if e.useMock then processReportMock task.articles
    else processReportReal e.compare e.filters e.download task.articles) <;>
    simp [queueWorkerStep, h]

/-! ## C1 — worker produces exactly one result per dequeued job -/

/-- **C1.** For every job dequeued by the queue worker, exactly one
`ReportResult` is enqueued on the result channel: the run over the FIFO
task list has one result per task, positionally; the result for a task
is a success carrying the artifact path when the chosen pipeline (real
or mock) returns, and a failure carrying the error description when any
stage raises; and a raising pipeline never terminates the loop — every
later task still gets its result. -/
theorem queue_worker_exactly_one_result (env : Nat → WorkerEnv)
    (tasks : List ReportTask) (start : Nat) :
    (queueWorkerRun env tasks start).length = tasks.length ∧
    (∀ i task, tasks.get? i = some task →
      (queueWorkerRun env tasks start).get? i =
        some (queueWorkerStep (env (start + i)) task)) ∧
    (∀ e task path,
      (if e.useMock then processReportMock task.articles
        else processReportReal e.compare e.filters e.download task.articles) = .ok path →
      queueWorkerStep e task =
        { task_id := task.task_id, user_id := task.user_id, chat_id := task.chat_id,
          success := true, file_path := some path, error := none,
          loading_message_id := task.loading_message_id }) ∧
    (∀ e task msg,
      (if e.useMock then processReportMock task.articles
        else processReportReal e.compare e.filters e.download task.articles) = .error msg →
      queueWorkerStep e task =
        { task_id := task.task_id, user_id := task.user_id, chat_id := task.chat_id,
          success := false, file_path := none, error := some msg,
          loading_message_id := task.loading_message_id }) := by
  refine ⟨queueWorkerRun_length env tasks start,
    fun i task h => queueWorkerRun_get? env tasks start i task h, ?_, ?_⟩
  · intro e task path hp
    simp [queueWorkerStep, hp]
  · intro e task msg hp
    simp [queueWorkerStep, hp]

/-! ## C4 — FIFO ordering of results -/

/-- **C4.** If job `A` stands strictly before job `B` in the task
channel (position `i < j`), then `A`'s result stands strictly before
`B`'s result in the result channel: the single worker emits results at
the same positions `i < j`. -/
theorem queue_worker_fifo (env : Nat → WorkerEnv) (tasks : List ReportTask)
    (start i j : Nat) (A B : ReportTask) (_hij : i < j)
    (hA : tasks.get? i = some A) (hB : tasks.get? j = some B) :
    ∃ rA rB, (queueWorkerRun env tasks start).get? i = some rA ∧
      (queueWorkerRun env tasks start).get? j = some rB ∧
      rA.task_id = A.task_id ∧ rB.task_id = B.task_id := by
  exact ⟨_, _, queueWorkerRun_get? env tasks start i A hA,
    queueWorkerRun_get? env tasks start j B hB,
    queueWorkerStep_task_id _ A, queueWorkerStep_task_id _ B⟩

/-- Concrete instance for C4: two jobs, the first failing in the real
pipeline, still produce results in submission order. -/
def c4Env : WorkerEnv :=
  { useMock := false, compare := fun _ => .error "element not found",
    filters := .ok (1, 1), download := fun _ _ => .ok "x.zip" }

/-- Task A of the C4 witness. -/
def c4TaskA : ReportTask :=
  { task_id := "A", user_id := 1, chat_id := 1, articles := [111, 222] }

/-- Task B of the C4 witness. -/
def c4TaskB : ReportTask :=
  { task_id := "B", user_id := 2, chat_id := 2, articles := [333, 444] }

/-- Witness for C4 at two concrete tasks. -/
theorem queue_worker_fifo_witness :
    ∃ rA rB, (queueWorkerRun (fun _ => c4Env) [c4TaskA, c4TaskB] 0).get? 0 = some rA ∧
      (queueWorkerRun (fun _ => c4Env) [c4TaskA, c4TaskB] 0).get? 1 = some rB ∧
      rA.task_id = c4TaskA.task_id ∧ rB.task_id = c4TaskB.task_id :=
  queue_worker_fifo (fun _ => c4Env) [c4TaskA, c4TaskB] 0 0 1 c4TaskA c4TaskB
    (by decide) rfl rfl

/-! ## C2 — submission handler: valid submission, task creation -/

/-- **C2 (code bug).** At a valid submission — balance `1`, text
`"111111111,222222222"` parsing to two numeric articles, empty queue —
`process_articles` sends the queued acknowledgment with the queue depth,
but then `ReportTask.create` is called with the unexpected keyword
`report_id` and raises `TypeError`: no task is created or enqueued and
the FSM state is not cleared, contradicting the claim that a Job is
created and enqueued. -/
theorem process_articles_report_id_type_error :
    process_articles 1 "111111111,222222222" 0 (some 7) (some 99) 42 100 "uuid-1" =
      { replies := [queuedAckMessage "111111111, 222222222" 1],
        enqueued := [], stateCleared := false, raised := some .typeError } := rfl

/-! ## C3 — result dispatcher -/

/-- Environment for the C3 counterexample: sticker deletion, file
existence, document delivery and unlink all succeed. -/
def c3Env : DispatchEnv :=
  { deleteMessageOk := true, fsExists := fun _ => true,
    sendDocumentOk := true, unlinkOk := true }

/-- Balance table for the C3 counterexample: user 42 exists with
balance 0 (reachable: balance 1, two jobs queued, first result already
charged). -/
def c3Db : BalanceDb := fun u => if u = 42 then some 0 else none

/-- Success result for the C3 counterexample. -/
def c3Result : ReportResult :=
  { task_id := "t1", user_id := 42, chat_id := 7, success := true,
    file_path := some "report.zip", error := none, loading_message_id := none }

/-- **C3 counterexample.** For a success result whose requester's
balance is already `0`, the dispatcher delivers the file but the
balance-update clamps at zero: the new balance is `0`, not the
`-1` that "decrements the requester's balance by exactly one unit"
demands — no unit is actually charged here. -/
theorem result_processor_clamp_counterexample :
    (resultProcessorStep c3Env c3Db c3Result).2 42 = some 0 ∧
    Effect.sentDocument 7 "report.zip" reportReadyCaption ∈
      (resultProcessorStep c3Env c3Db c3Result).1 ∧
    ¬ (resultProcessorStep c3Env c3Db c3Result).2 42 = some (-1) := by
  refine ⟨rfl, ?_, ?_⟩
  · decide
  · intro h
    cases h

/-- **C3 (amended).** The dispatcher: for a success result with the
artifact present and delivery succeeding, it sends the file, deletes it
(when `unlink` succeeds), updates the requester's balance by one unit —
clamped at zero, so a balance already at `0` stays `0` — and reports
the new balance; a success result whose artifact is missing is a
failure condition: nothing is delivered and no balance changes; a
failure result delivers the error text, which states explicitly that no
balance was charged, and changes no balance. -/
theorem result_processor_dispatch (env : DispatchEnv) (db : BalanceDb)
    (r : ReportResult) :
    (∀ path b, r.success = true → r.file_path = some path →
      env.fsExists path = true → env.sendDocumentOk = true → env.unlinkOk = true →
      db r.user_id = some b →
      Effect.sentDocument r.chat_id path reportReadyCaption ∈
        (resultProcessorStep env db r).1 ∧
      Effect.deletedFile path ∈ (resultProcessorStep env db r).1 ∧
      (resultProcessorStep env db r).2 r.user_id =
        some (if b - 1 < 0 then 0 else b - 1) ∧
      Effect.sentMessage r.chat_id (balanceMessage (if b - 1 < 0 then 0 else b - 1)) ∈
        (resultProcessorStep env db r).1 ∧
      (∀ u, u ≠ r.user_id → (resultProcessorStep env db r).2 u = db u)) ∧
    (∀ path, r.success = true → r.file_path = some path → env.fsExists path = false →
      (resultProcessorStep env db r).2 = db ∧
      (∀ c p cap, Effect.sentDocument c p cap ∉ (resultProcessorStep env db r).1)) ∧
    (r.success = false →
      (resultProcessorStep env db r).2 = db ∧
      Effect.sentMessage r.chat_id (errorMessage r.error) ∈
        (resultProcessorStep env db r).1 ∧
      hasRun "Баланс не был списан".data (errorMessage r.error).data = true) := by
  refine ⟨?_, ?_, ?_⟩
  · intro path b hs hf hex hsend hun hdb
    have hb : b + -1 = b - 1 := by ring
    simp only [resultProcessorStep, hs, hf, hex, hsend, hun, if_true,
      Bool.not_true, Bool.false_eq_true, if_false, update_balance, hdb, hb]
    refine ⟨?_, ?_, ?_, ?_, ?_⟩
    · cases r.loading_message_id <;> simp
    · cases r.loading_message_id <;> simp
    · simp [check_balance]
    · cases r.loading_message_id <;> simp [check_balance]
    · intro u hu
      simp [if_neg hu]
  · intro path hs hf hex
    simp only [resultProcessorStep, hs, hf, hex, Bool.not_false, if_true]
    refine ⟨rfl, ?_⟩
    intro c p cap hmem
    cases hlm : r.loading_message_id with
    | none => simp [hlm] at hmem
    | some m =>
        rw [hlm] at hmem
        cases hdel : env.deleteMessageOk <;> simp [hdel] at hmem
  · intro hs
    refine ⟨?_, ?_, ?_⟩
    · simp [resultProcessorStep, hs]
    · simp only [resultProcessorStep, hs, Bool.false_eq_true, if_false]
      cases r.loading_message_id <;> simp
    · show hasRun _ (errorMessage r.error).data = true
      unfold errorMessage
      rw [String.data_append]
      exact hasRun_append_of_right _ _ (by decide) _

/-! ## C5 — load_state is total and returns absent on every failure path -/

/-- **C5.** `load_state` returns a session object exactly when the file
exists, its content parses as JSON, and the parsed state passes
validation; a missing file, a parse error, an exception inside
validation, or a failed validation all yield "absent" (`none`) — the
function is total and never propagates an error. -/
theorem load_state_total (t : Int) (file : Option String) (s : Json) :
    load_state t file = some s ↔
      ∃ content, file = some content ∧ jsonParse content = some s ∧
        is_state_valid t s = .ok true := by
  cases file with
  | none => simp [load_state]
  | some content =>
      cases hp : jsonParse content with
      | none =>
          simp only [load_state, hp]
          constructor
          · intro h; cases h
          · rintro ⟨c, hc, hp2, hv2⟩
            cases hc
            rw [hp] at hp2
            cases hp2
      | some st =>
          cases hv : is_state_valid t st with
          | ok b =>
              cases b with
              | true =>
                  simp only [load_state, hp, hv]
                  constructor
                  · intro h
                    cases h
                    exact ⟨content, rfl, hp, hv⟩
                  · rintro ⟨c, hc, hp2, hv2⟩
                    cases hc
                    rw [hp] at hp2
                    cases hp2
                    rfl
              | false =>
                  simp only [load_state, hp, hv]
                  constructor
                  · intro h; cases h
                  · rintro ⟨c, hc, hp2, hv2⟩
                    cases hc
                    rw [hp] at hp2
                    cases hp2
                    rw [hv] at hv2
                    cases hv2
          | error e =>
              simp only [load_state, hp, hv]
              constructor
              · intro h; cases h
              · rintro ⟨c, hc, hp2, hv2⟩
                cases hc
                rw [hp] at hp2
                cases hp2
                rw [hv] at hv2
                cases hv2

/-! ## Session-state lemmas shared by C6 and C10 -/

/-- Whether the validator's expiry check lets the cookie through:
rejection needs a strictly positive `expires` with
`t > expires - 3600`. -/
def cookieFresh (t : Int) (c : CookieRec) : Bool :=
  ¬ (c.expires.getD 0 > 0 ∧ t > c.expires.getD 0 - 3600)

lemma bind_ok_eq {α β : Type} (a : α) (f : α → Except PyErr β) :
    (Except.ok a >>= f) = f a := rfl

lemma pyGetD_cookieJson_name (c : CookieRec) :
    (cookieJson c).pyGetD "name" .null = .ok (.str c.name) := by
  obtain ⟨nm, vl, ex⟩ := c
  cases ex <;> rfl

lemma pyGetD_cookieJson_expires (c : CookieRec) :
    (cookieJson c).pyGetD "expires" (.int 0) = .ok (.int (c.expires.getD 0)) := by
  obtain ⟨nm, vl, ex⟩ := c
  cases ex <;> rfl

lemma pyGetD_cookieJson_value (c : CookieRec) :
    (cookieJson c).pyGetD "value" (.str "") = .ok (.str c.value) := by
  obtain ⟨nm, vl, ex⟩ := c
  cases ex <;> rfl

lemma truthy_cookieJson (c : CookieRec) : (cookieJson c).truthy = true := by
  obtain ⟨nm, vl, ex⟩ := c
  cases ex <;> rfl

lemma cookieExpiryOk_cookieJson (t : Int) (c : CookieRec) :
    cookieExpiryOk t (cookieJson c) = .ok (cookieFresh t c) := by
  unfold cookieExpiryOk cookieFresh
  rw [pyGetD_cookieJson_expires]
  rfl

lemma collectCriticals_map (cs : List CookieRec) (r v : Option Json) :
    collectCriticals (cs.map cookieJson) (r, v) =
      .ok ((lastNamed cs "wbx-refresh").elim r (fun c => some (cookieJson c)),
           (lastNamed cs "wbx-validation-key").elim v (fun c => some (cookieJson c))) := by
  induction cs generalizing r v with
  | nil => rfl
  | cons c rest ih =>
      have step : collectCriticals ((c :: rest).map cookieJson) (r, v) =
          collectCriticals (rest.map cookieJson)
            (if c.name = "wbx-refresh" then (some (cookieJson c), v)
             else if c.name = "wbx-validation-key" then (r, some (cookieJson c))
             else (r, v)) := by
        simp only [List.map_cons, collectCriticals]
        rw [pyGetD_cookieJson_name, bind_ok_eq]
      rw [step]
      by_cases h1 : c.name = "wbx-refresh"
      · have h2 : c.name ≠ "wbx-validation-key" := by rw [h1]; decide
        rw [if_pos h1, ih]
        cases hl1 : lastNamed rest "wbx-refresh" <;>
          cases hl2 : lastNamed rest "wbx-validation-key" <;>
            simp [lastNamed, hl1, hl2, h1, h2]
      · rw [if_neg h1]
        by_cases h2 : c.name = "wbx-validation-key"
        · rw [if_pos h2, ih]
          cases hl1 : lastNamed rest "wbx-refresh" <;>
            cases hl2 : lastNamed rest "wbx-validation-key" <;>
              simp [lastNamed, hl1, hl2, h1, h2]
        · rw [if_neg h2, ih]
          cases hl1 : lastNamed rest "wbx-refresh" <;>
            cases hl2 : lastNamed rest "wbx-validation-key" <;>
              simp [lastNamed, hl1, hl2, h1, h2]

/-- `criticalCookiesCheck` on a pair of serialized cookie records
evaluates to the boolean combination of the expiry and JWT checks. -/
lemma criticalCookiesCheck_eval (t : Int) (R V : Option CookieRec) :
    criticalCookiesCheck t (R.map cookieJson, V.map cookieJson) = .ok (
      match R, V with
      | some rc, some vc =>
          cookieFresh t rc && (cookieFresh t vc && validate_jwt t (Json.str rc.value))
      | _, _ => false) := by
  cases R with
  | none => rfl
  | some rc =>
      cases V with
      | none =>
          simp only [criticalCookiesCheck, Option.map_some', Option.map_none']
          rw [cookieExpiryOk_cookieJson, bind_ok_eq]
          cases cookieFresh t rc <;> rfl
      | some vc =>
          simp only [criticalCookiesCheck, Option.map_some']
          rw [cookieExpiryOk_cookieJson, bind_ok_eq]
          cases hfr : cookieFresh t rc with
          | false => rfl
          | true =>
              simp only [Bool.not_true, Bool.false_eq_true, if_false,
                Bool.true_and]
              rw [cookieExpiryOk_cookieJson, bind_ok_eq]
              cases hfv : cookieFresh t vc with
              | false => rfl
              | true =>
                  simp only [Bool.not_true, Bool.false_eq_true, if_false,
                    Bool.true_and]
                  rw [show ((cookieJson rc).truthy : Bool) = true from
                    truthy_cookieJson rc]
                  rw [if_pos rfl, pyGetD_cookieJson_value, bind_ok_eq]
                  cases validate_jwt t (Json.str rc.value) <;> rfl

/-- The validator on a serialized cookie list: it reduces to the check
on the last occurrence of each critical cookie and the refresh cookie's
JWT. -/
lemma is_state_valid_stateJson (t : Int) (cs : List CookieRec) (hne : cs ≠ []) :
    is_state_valid t (stateJson cs) = .ok (
      match lastNamed cs "wbx-refresh", lastNamed cs "wbx-validation-key" with
      | some rc, some vc =>
          cookieFresh t rc && (cookieFresh t vc && validate_jwt t (Json.str rc.value))
      | _, _ => false) := by
  obtain ⟨c0, rest, rfl⟩ : ∃ c0 rest, cs = c0 :: rest := by
    cases cs with
    | nil => exact absurd rfl hne
    | cons a b => exact ⟨a, b, rfl⟩
  have hred : is_state_valid t (stateJson (c0 :: rest)) =
      collectCriticals ((c0 :: rest).map cookieJson) (none, none) >>=
        criticalCookiesCheck t := rfl
  rw [hred, collectCriticals_map (c0 :: rest) none none, bind_ok_eq]
  have helim : ∀ (o : Option CookieRec),
      o.elim (none : Option Json) (fun c => some (cookieJson c)) = o.map cookieJson := by
    intro o
    cases o <;> rfl
  rw [helim, helim]
  exact criticalCookiesCheck_eval t _ _

/-! ## C6 — expired critical cookie is rejected (amended boundary) -/

/-- **C6 (amended).** A session state whose critical cookie — the last
occurrence the validator keeps — has a *strictly positive* expiry with
`now > expiry - 3600` (equivalently `expiry < now + 1h`) fails
validation, and the loader returns "absent" for any file content that
parses to that state. (The claim's `expiry ≤ now + 1h` boundary and
its `expires = 0` instances are not rejected; see the counterexample.) -/
theorem session_expired_cookie_rejected (t : Int) (cs : List CookieRec)
    (n : String) (c : CookieRec) (content : String)
    (hn : n = "wbx-refresh" ∨ n = "wbx-validation-key")
    (hlast : lastNamed cs n = some c)
    (hpos : 0 < c.expires.getD 0)
    (hexp : t > c.expires.getD 0 - 3600)
    (hparse : jsonParse content = some (stateJson cs)) :
    load_state t (some content) = none := by
  have hne : cs ≠ [] := by
    intro h
    rw [h] at hlast
    cases hlast
  have hfresh : cookieFresh t c = false := by
    simp [cookieFresh, hpos, hexp]
  have hval : is_state_valid t (stateJson cs) = .ok false := by
    rw [is_state_valid_stateJson t cs hne]
    rcases hn with rfl | rfl
    · rw [hlast]
      cases lastNamed cs "wbx-validation-key" <;> simp [hfresh]
    · rw [hlast]
      cases lastNamed cs "wbx-refresh" <;> simp [hfresh]
  simp only [load_state, hparse, hval]

/-- Cookies of the C6 witness: both critical cookies expired at the
current time `4000` (`expires = 100`, `0 < 100`, `4000 > 100 - 3600`). -/
def c6WitnessCookies : List CookieRec :=
  [{ name := "wbx-refresh", value := "a.e30.c", expires := some 100 },
   { name := "wbx-validation-key", value := "x", expires := some 100 }]

/-- File content parsing to `stateJson c6WitnessCookies`. -/
def c6WitnessContent : String :=
  "\x7b\"cookies\": [\x7b\"name\": \"wbx-refresh\", \"value\": \"a.e30.c\", " ++
  "\"expires\": 100\x7d, \x7b\"name\": \"wbx-validation-key\", \"value\": \"x\", " ++
  "\"expires\": 100\x7d]\x7d"

set_option maxRecDepth 100000 in
/-- Witness for C6 (amended): the concrete expired state is rejected. -/
theorem session_expired_cookie_rejected_witness :
    load_state 4000 (some c6WitnessContent) = none :=
  session_expired_cookie_rejected 4000 c6WitnessCookies "wbx-refresh"
    { name := "wbx-refresh", value := "a.e30.c", expires := some 100 }
    c6WitnessContent (Or.inl rfl) rfl (by decide) (by decide) rfl

/-- The state of the C6 counterexample: both critical cookies carry
`expires = 3600` at current time `0` — exactly `now + 1h`, so the
claim demands rejection. -/
def c6BoundaryCookies : List CookieRec :=
  [{ name := "wbx-refresh", value := "a.e30.c", expires := some 3600 },
   { name := "wbx-validation-key", value := "x", expires := some 3600 }]

/-- File content parsing to `stateJson c6BoundaryCookies`. -/
def c6BoundaryContent : String :=
  "\x7b\"cookies\": [\x7b\"name\": \"wbx-refresh\", \"value\": \"a.e30.c\", " ++
  "\"expires\": 3600\x7d, \x7b\"name\": \"wbx-validation-key\", \"value\": \"x\", " ++
  "\"expires\": 3600\x7d]\x7d"

set_option maxRecDepth 100000 in
/-- **C6 counterexample.** At current time `0`, a state whose critical
cookies expire at epoch `3600 = now + 1h` — within the claim's
"expiry ≤ now + 1h must be rejected" — is *loaded*, not absent: the
code only rejects when `now > expires - 3600` strictly. -/
theorem session_expiry_boundary_loaded :
    load_state 0 (some c6BoundaryContent) = some (stateJson c6BoundaryCookies) ∧
    (3600 : Int) ≤ 0 + 3600 := by
  exact ⟨rfl, by norm_num⟩

/-! ## C10 — zero or absent expiry skips the expiry check -/

/-- **C10.** When both critical cookies carry `expires = 0` or no
`expires` at all (`.getD 0 = 0`), the expiry/safety-margin check is
skipped entirely: validation reduces precisely to the JWT
structural/freshness check of the refresh cookie's value, whatever the
current time. -/
theorem session_zero_expiry_skips_check (t : Int) (cs : List CookieRec)
    (cr cv : CookieRec)
    (hr : lastNamed cs "wbx-refresh" = some cr)
    (hv : lastNamed cs "wbx-validation-key" = some cv)
    (her : cr.expires.getD 0 = 0)
    (hev : cv.expires.getD 0 = 0) :
    is_state_valid t (stateJson cs) = .ok (validate_jwt t (Json.str cr.value)) := by
  have hne : cs ≠ [] := by
    intro h
    rw [h] at hr
    cases hr
  rw [is_state_valid_stateJson t cs hne, hr, hv]
  have hfr : cookieFresh t cr = true := by simp [cookieFresh, her]
  have hfv : cookieFresh t cv = true := by simp [cookieFresh, hev]
  simp [hfr, hfv]

/-- Cookies of the C10 witness: a refresh cookie with `expires = 0` and
a validation-key cookie with no `expires` field at all. -/
def c10Cookies : List CookieRec :=
  [{ name := "wbx-refresh", value := "a.e30.c", expires := some 0 },
   { name := "wbx-validation-key", value := "x", expires := none }]

set_option maxRecDepth 100000 in
/-- Witness for C10: at a current time far in the future (`10^10`), the
zero/absent-expiry state is accepted — the expiry check never fires and
the JWT check passes. -/
theorem session_zero_expiry_skips_check_witness :
    is_state_valid (10 ^ 10) (stateJson c10Cookies) = .ok true := by
  rw [session_zero_expiry_skips_check (10 ^ 10) c10Cookies
    { name := "wbx-refresh", value := "a.e30.c", expires := some 0 }
    { name := "wbx-validation-key", value := "x", expires := none }
    rfl rfl rfl rfl]
  rfl

/-! ## C7 — stale or absent pending request rejects the code -/

/-- **C7.** A code message (matching the `^\d{4,6}$` filter) arriving
when no pending authentication request exists — the
`wb_client`/`_auth_service`/`_pending_code_future` chain is broken or
the slot is `None` — or when the slot is already done (resolved or
cancelled), is rejected without side effects: the application state is
unchanged (no slot is resolved) and the handler raises nothing. -/
theorem auth_code_no_pending_rejected (adminId fromUserId : Int) (text : String)
    (app : AppState)
    (_hcode : matchesAuthCode text = true)
    (hslot : ∀ fut, pendingSlotOf app = some fut → fut.done = true) :
    (handle_auth_code adminId fromUserId text app).app = app ∧
    (handle_auth_code adminId fromUserId text app).raised = none := by
  obtain ⟨wbc⟩ := app
  by_cases hne : fromUserId ≠ adminId
  · simp [handle_auth_code, hne]
  · cases wbc with
    | none => simp [handle_auth_code, hne]
    | some wb =>
        obtain ⟨auths⟩ := wb
        cases auths with
        | none => simp [handle_auth_code, hne]
        | some auth =>
            obtain ⟨slot⟩ := auth
            cases slot with
            | none => simp [handle_auth_code, hne]
            | some fut =>
                have hdone : fut.done = true := hslot fut rfl
                simp [handle_auth_code, hne, hdone]

/-- App of the C7 witness: the pending slot holds an already-resolved
future. -/
def c7App : AppState :=
  let auth : AuthServiceState := { pendingCodeFuture := some (.resolved "1234") }
  let wb : WBClientState := { authService := some auth }
  { wbClient := some wb }

/-- Witness for C7: a second code sent by the admin after the slot was
resolved leaves the state unchanged and raises nothing. -/
theorem auth_code_no_pending_rejected_witness :
    (handle_auth_code 1 1 "5678" c7App).app = c7App ∧
    (handle_auth_code 1 1 "5678" c7App).raised = none :=
  auth_code_no_pending_rejected 1 1 "5678" c7App (by decide)
    (fun fut h => by
      have hh : PyFuture.resolved "1234" = fut :=
        Option.some.inj (show some (PyFuture.resolved "1234") = some fut from h)
      rw [← hh]
      rfl)

/-! ## C8 — code-request timeout fails distinctly and clears the slot -/

/-- **C8.** When no code arrives within the 300-second wait,
`_request_code_via_telegram` fails with the distinct timeout condition
(`codeTimeout`, not the notification-failure error), and the
pending-code slot is `None` afterwards, so a later code submission finds
no stale wait to resolve. -/
theorem request_code_timeout_clears_slot (s : AuthServiceState) :
    request_code_via_telegram .ok .timeout s =
      ({ pendingCodeFuture := none }, .error .codeTimeout) := rfl

/-! ## C9 — unique id from a fixed seed set, bounded below 10^9 -/

/-- **C9.** The filter-processing stage's identifier is
`generate_unique_id(1, 2, 3, 4, 5)` — computed from the fixed seed set,
deterministic in the process's string hash `h`, identical for any two
jobs regardless of their articles — and is smaller than `10^9`. -/
theorem process_filters_unique_id_fixed (h : String → Int)
    (articles articles' : List Int) :
    realPipelineUniqueId h articles = generate_unique_id h [1, 2, 3, 4, 5] ∧
    realPipelineUniqueId h articles = realPipelineUniqueId h articles' ∧
    realPipelineUniqueId h articles < 10 ^ 9 := by
  refine ⟨rfl, rfl, ?_⟩
  show generate_unique_id h [1, 2, 3, 4, 5] < 10 ^ 9
  unfold generate_unique_id
  simp only [List.isEmpty_cons, if_false, Bool.false_eq_true]
  exact Nat.mod_lt _ (by norm_num)

end CardCompare
